import Mathlib

/-!
Verification of the OpenGL desktop context layer
(`src/internal/opengl/context_desktop.go`).

The Go code is a stateful adaptation layer over the OpenGL device: it
mirrors device-global state (bound texture, bound framebuffer, viewport,
composite mode, screen framebuffer), caches shader parameter locations per
program, and manages resource handle lifecycles.

Embedding: each Go method becomes a pure Lean function from the cached
context state (plus the device responses the method would observe) to the
new cached state, the list of device calls actually issued, and the result.
Device responses (the results of glGenTextures, glIsTexture,
glCheckFramebufferStatusEXT, glGetError, glGetUniformLocation, ...) are
explicit oracle parameters, since the device itself is outside this layer.
A Go panic is modelled as `none`; a Go `(value, error)` pair is modelled
as the value together with an `Option String` error.
-/

namespace EbitenGL

/-- One call issued to the underlying OpenGL device, with the arguments
that matter for the claims (constant arguments baked into the call site
are kept as fields where they vary, dropped where they are fixed). -/
inductive GLCall where
  | glInit
  | enable (cap : Nat)
  | blendFunc (sfactor dfactor : Nat)
  | genTextures
  | pixelStorei (pname param : Nat)
  | bindTexture (t : Nat)
  | texParameteri (pname param : Nat)
  | texImage2D (width height : Int)
  | isTexture (t : Nat)
  | deleteTextures (t : Nat)
  | genFramebuffers
  | bindFramebuffer (f : Nat)
  | framebufferTexture2D (texture : Nat)
  | checkFramebufferStatus
  | getError
  | isFramebuffer (f : Nat)
  | deleteFramebuffers (f : Nat)
  | viewport (width height : Int)
  | createProgram
  | attachShader (p s : Nat)
  | linkProgram (p : Nat)
  | getProgramiv (p : Nat)
  | isProgram (p : Nat)
  | deleteProgram (p : Nat)
  | getUniformLocation (p : Nat) (name : String)
  | uniform2fv (l : Int)
  | uniform4fv (l : Int)
  | uniformMatrix4fv (l : Int)
  | getIntegerv (pname : Nat)
  deriving DecidableEq, Repr

/-- glIsTexture and friends report whether a delete call is among the
calls a trace issued; used to state the idempotent-deletion claims. -/
def GLCall.isDeleteCall : GLCall → Bool
  | .deleteTextures _ => true
  | .deleteFramebuffers _ => true
  | .deleteProgram _ => true
  | _ => false

/- OpenGL numeric constants, as bound by the go-gl package used by the
source (`gl.BLEND`, `gl.FRAMEBUFFER_COMPLETE`, blend factors, ...). -/

def GL_BLEND : Nat := 3042
def GL_FRAMEBUFFER_COMPLETE : Nat := 36053
def GL_NO_ERROR : Nat := 0
def GL_FRAMEBUFFER_BINDING : Nat := 36006
def GL_UNPACK_ALIGNMENT : Nat := 3317
def GL_TEXTURE_MAG_FILTER : Nat := 10240
def GL_TEXTURE_MIN_FILTER : Nat := 10241
def GL_TEXTURE_WRAP_S : Nat := 10242
def GL_TEXTURE_WRAP_T : Nat := 10243
def GL_NEAREST : Nat := 9728
def GL_CLAMP_TO_EDGE : Nat := 33071
def GL_ZERO : Nat := 0
def GL_ONE : Nat := 1
def GL_SRC_ALPHA : Nat := 770
def GL_ONE_MINUS_SRC_ALPHA : Nat := 771
def GL_DST_ALPHA : Nat := 772
def GL_ONE_MINUS_DST_ALPHA : Nat := 773

/-- Handle sentinels from the source: `invalidTexture = 0` and
`invalidFramebuffer = (1 << 32) - 1`. -/
def invalidTexture : Nat := 0

/-- The framebuffer sentinel is all-ones, not zero, because the device can
legitimately hand out 0 as the default framebuffer id. -/
def invalidFramebuffer : Nat := (1 <<< 32) - 1

/-- Modelled from the spec: the semantic composite (blend) modes of the
graphics package (`internal/graphics`, not under src/). `unknown` is the
sentinel `CompositeModeUnknown` that `reset` stores before re-applying
source-over. -/
inductive CompositeMode where
  | unknown
  | sourceOver
  | clear
  | copy
  | lighter
  deriving DecidableEq, Repr

/-- Modelled from the spec: the blend operations (device blend factors in
semantic form) of the graphics package (not under src/). -/
inductive Operation where
  | zero
  | one
  | srcAlpha
  | dstAlpha
  | oneMinusSrcAlpha
  | oneMinusDstAlpha
  deriving DecidableEq, Repr

/-- Modelled from the spec: `CompositeMode.Operations` of the graphics
package (not under src/) maps a semantic mode to its
(source factor, destination factor) pair; source-over is
(one, one-minus-source-alpha). The pair for `unknown` is never requested
by the engine; it is given a fixed placeholder here. -/
def operations : CompositeMode → Operation × Operation
  | .unknown => (.zero, .zero)
  | .sourceOver => (.one, .oneMinusSrcAlpha)
  | .clear => (.zero, .zero)
  | .copy => (.one, .zero)
  | .lighter => (.one, .one)

/-- Modelled from the spec: `convertOperation` (defined outside src/) maps
a semantic blend operation to the device blend-factor constant bound in
the `init` block of the source file. -/
def convertOperation : Operation → Nat
  | .zero => GL_ZERO
  | .one => GL_ONE
  | .srcAlpha => GL_SRC_ALPHA
  | .dstAlpha => GL_DST_ALPHA
  | .oneMinusSrcAlpha => GL_ONE_MINUS_SRC_ALPHA
  | .oneMinusDstAlpha => GL_ONE_MINUS_DST_ALPHA

/-- The cached state of the Context: the `init` guard flag, the Location
Cache (an association list keyed by (program id, name)), and the
Cached-State Snapshot fields of the source struct. -/
structure Context where
  init : Bool
  locationCache : List ((Nat × String) × Int)
  lastTexture : Nat
  lastFramebuffer : Nat
  lastViewportWidth : Nat
  lastViewportHeight : Nat
  lastCompositeMode : CompositeMode
  screenFramebuffer : Nat
  deriving DecidableEq, Repr

/-- A fresh context as `Init` leaves it (zero values of the Go struct). -/
def freshContext : Context :=
  { init := false
    locationCache := []
    lastTexture := 0
    lastFramebuffer := 0
    lastViewportWidth := 0
    lastViewportHeight := 0
    lastCompositeMode := .unknown
    screenFramebuffer := 0 }

/-- Result of a fallible resource-creation operation: new cached state,
device calls issued, the returned handle value and the returned error
(`none` = Go `nil`). -/
structure GLOut where
  ctx : Context
  calls : List GLCall
  handle : Nat
  err : Option String
  deriving DecidableEq, Repr

/-- Result of `reset`: new cached state, device calls issued, error. -/
structure ResetOut where
  ctx : Context
  calls : List GLCall
  err : Option String
  deriving DecidableEq, Repr

/-- Lookup in the Location Cache association list. -/
def lookupLocation (cache : List ((Nat × String) × Int)) (p : Nat) (name : String) : Option Int :=
  match cache with
  | [] => none
  | (k, l) :: rest => if k = (p, name) then some l else lookupLocation rest p name

/-- Modelled from the spec: `locationCache.GetUniformLocation` (the
location cache lives in context.go/locationcache, not under src/). On the
first request for a (program, name) pair it resolves via the device
(oracle `devLoc`) and stores the result; later requests return the stored
value with no device round-trip. The fatal not-found check of the
device-facing resolver is `getUniformLocationImpl` below. -/
def GetUniformLocation (c : Context) (p : Nat) (name : String) (devLoc : Int) :
    Context × Int × List GLCall :=
  match lookupLocation c.locationCache p name with
  | some l => (c, l, [])
  | none =>
      ({ c with locationCache := ((p, name), devLoc) :: c.locationCache },
       devLoc, [.getUniformLocation p name])

/-- Modelled from the spec: the short-circuit texture bind of context.go
(not under src/): skip the device bind entirely when the requested handle
already matches the cached one, otherwise issue it and update the cache. -/
def BindTexture (c : Context) (t : Nat) : Context × List GLCall :=
  if c.lastTexture = t then (c, [])
  else ({ c with lastTexture := t }, [.bindTexture t])

/-- Modelled from the spec: the short-circuit framebuffer bind of
context.go (not under src/), same pattern as the texture bind. -/
def bindFramebuffer (c : Context) (f : Nat) : Context × List GLCall :=
  if c.lastFramebuffer = f then (c, [])
  else ({ c with lastFramebuffer := f }, [.bindFramebuffer f])

/-- `BlendFunc` from the source: return immediately when the mode equals
the cached last composite mode; otherwise record the mode, resolve it to
device blend factors and issue exactly one `gl.BlendFunc`. -/
def BlendFunc (c : Context) (mode : CompositeMode) : Context × List GLCall :=
  if c.lastCompositeMode = mode then (c, [])
  else
    let sd := operations mode
    ({ c with lastCompositeMode := mode },
     [.blendFunc (convertOperation sd.1) (convertOperation sd.2)])

/-- The tail of `reset` after the guarded `gl.Init` step: recreate the
Location Cache, reset the cached snapshot to sentinels, enable blending,
apply source-over through `BlendFunc`, and record the currently bound
framebuffer (oracle `fbBinding`) as the screen framebuffer. -/
def resetTail (c : Context) (fbBinding : Nat) (pre : List GLCall) : ResetOut :=
  let c1 : Context :=
    { c with
      locationCache := []
      lastTexture := invalidTexture
      lastFramebuffer := invalidFramebuffer
      lastViewportWidth := 0
      lastViewportHeight := 0
      lastCompositeMode := .unknown }
  let bf := BlendFunc c1 .sourceOver
  { ctx := { bf.1 with screenFramebuffer := fbBinding }
    calls := pre ++ [.enable GL_BLEND] ++ bf.2 ++ [.getIntegerv GL_FRAMEBUFFER_BINDING]
    err := none }

/-- `reset` from the source. Oracle `initErr` is what `gl.Init` would
report if called (`none` = success); it is consulted only when the `init`
flag is still false. Oracle `fbBinding` is the framebuffer binding the
device reports at the end. -/
def reset (c : Context) (initErr : Option String) (fbBinding : Nat) : ResetOut :=
  if c.init then
    resetTail c fbBinding []
  else
    match initErr with
    | some e =>
        { ctx := c, calls := [.glInit], err := some ("opengl: initializing error " ++ e) }
    | none => resetTail { c with init := true } fbBinding [.glInit]

/-- `NewTexture` from the source. Oracle `genT` is the handle
`gl.GenTextures` produces; `t <= 0` (that is, 0 for an unsigned handle)
fails the creation. On success the new texture is bound through the
short-circuit bind path and configured. -/
def NewTexture (c : Context) (width height : Int) (genT : Nat) : GLOut :=
  if genT = 0 then
    { ctx := c, calls := [.genTextures], handle := 0,
      err := some "opengl: creating texture failed" }
  else
    let bt := BindTexture c genT
    { ctx := bt.1
      calls := [.genTextures, .pixelStorei GL_UNPACK_ALIGNMENT 4] ++ bt.2 ++
        [.texParameteri GL_TEXTURE_MAG_FILTER GL_NEAREST,
         .texParameteri GL_TEXTURE_MIN_FILTER GL_NEAREST,
         .texParameteri GL_TEXTURE_WRAP_S GL_CLAMP_TO_EDGE,
         .texParameteri GL_TEXTURE_WRAP_T GL_CLAMP_TO_EDGE,
         .texImage2D width height]
      handle := genT
      err := none }

/-- `NewFramebuffer` from the source. Oracles: `genF` is the handle
`gl.GenFramebuffersEXT` produces, `status` the completeness verdict of
`gl.CheckFramebufferStatusEXT`, `lastErr` what `gl.GetError` would report.
On incompleteness the error is built with a three-tier fallback:
nonzero status code, else nonzero generic error code, else a fixed
unknown-error message; every failure returns handle value 0. -/
def NewFramebuffer (c : Context) (texture : Nat) (genF status lastErr : Nat) : GLOut :=
  if genF = 0 then
    { ctx := c, calls := [.genFramebuffers], handle := 0,
      err := some "opengl: creating framebuffer failed: gl.IsFramebuffer returns false" }
  else
    let bf := bindFramebuffer c genF
    let calls := [GLCall.genFramebuffers] ++ bf.2 ++
      [.framebufferTexture2D texture, .checkFramebufferStatus]
    if status = GL_FRAMEBUFFER_COMPLETE then
      { ctx := bf.1, calls := calls, handle := genF, err := none }
    else if status ≠ 0 then
      { ctx := bf.1, calls := calls, handle := 0,
        err := some ("opengl: creating framebuffer failed: " ++ toString status) }
    else if lastErr ≠ GL_NO_ERROR then
      { ctx := bf.1, calls := calls ++ [.getError], handle := 0,
        err := some ("opengl: creating framebuffer failed: (glGetError) " ++ toString lastErr) }
    else
      { ctx := bf.1, calls := calls ++ [.getError], handle := 0,
        err := some "opengl: creating framebuffer failed: unknown error" }

/-- `DeleteTexture` from the source. Oracle `live` is what `gl.IsTexture`
reports: a dead handle is a silent no-op; deleting the cached bound
texture first resets that cache entry to the invalid sentinel. -/
def DeleteTexture (c : Context) (t : Nat) (live : Bool) : Context × List GLCall :=
  if !live then (c, [.isTexture t])
  else if c.lastTexture = t then
    ({ c with lastTexture := invalidTexture }, [.isTexture t, .deleteTextures t])
  else (c, [.isTexture t, .deleteTextures t])

/-- `DeleteFramebuffer` from the source. Oracle `live` is what
`gl.IsFramebufferEXT` reports. Deleting the cached bound framebuffer
resets the framebuffer cache entry to the invalid sentinel and both
cached viewport dimensions to 0 before the device delete. -/
def DeleteFramebuffer (c : Context) (f : Nat) (live : Bool) : Context × List GLCall :=
  if !live then (c, [.isFramebuffer f])
  else if c.lastFramebuffer = f then
    ({ c with
        lastFramebuffer := invalidFramebuffer
        lastViewportWidth := 0
        lastViewportHeight := 0 },
     [.isFramebuffer f, .deleteFramebuffers f])
  else (c, [.isFramebuffer f, .deleteFramebuffers f])

/-- `newProgram` from the source. Oracles: `devP` the handle
`gl.CreateProgram` produces (0 = failure), `linkOK` the link status, and
`infoLog` the diagnostic log text the device would supply; the source
never queries the program info log, so `infoLog` is unused and the link
failure message is the fixed `opengl: program error`. -/
def newProgram (c : Context) (shaders : List Nat) (devP : Nat) (linkOK : Bool)
    (infoLog : String) : GLOut :=
  if devP = 0 then
    { ctx := c, calls := [.createProgram], handle := 0,
      err := some "opengl: glCreateProgram failed" }
  else
    let calls := [GLCall.createProgram] ++
      shaders.map (fun s => GLCall.attachShader devP s) ++
      [.linkProgram devP, .getProgramiv devP]
    if linkOK then { ctx := c, calls := calls, handle := devP, err := none }
    else { ctx := c, calls := calls, handle := 0, err := some "opengl: program error" }

/-- `deleteProgram` from the source. Oracle `live` is what `gl.IsProgram`
reports: a dead handle is a silent no-op. Note that the source issues the
device delete without touching `c.locationCache`. -/
def deleteProgram (c : Context) (p : Nat) (live : Bool) : Context × List GLCall :=
  if !live then (c, [.isProgram p])
  else (c, [.isProgram p, .deleteProgram p])

/-- `getUniformLocationImpl` from the source. Oracle `devLoc` is what
`gl.GetUniformLocation` resolves the name to; `-1` is the device
not-found sentinel and makes the source panic, modelled as `none`. -/
def getUniformLocationImpl (p : Nat) (name : String) (devLoc : Int) : Option Int :=
  if devLoc = -1 then none else some devLoc

/-- `getAttribLocationImpl` from the source, same shape as the uniform
resolver: panic (modelled `none`) exactly on the `-1` sentinel. -/
def getAttribLocationImpl (p : Nat) (name : String) (devLoc : Int) : Option Int :=
  if devLoc = -1 then none else some devLoc

/-- `uniformFloats` from the source: resolve the location through the
Location Cache, then dispatch on the slice length — 2 issues a 2-vector
uniform call, 4 a 4-vector call, 16 a 4x4 matrix call, and every other
length hits the `not reached` panic, modelled as a `none` call list. -/
def uniformFloats (c : Context) (p : Nat) (name : String) (v : List Float)
    (devLoc : Int) : Context × Option (List GLCall) :=
  let g := GetUniformLocation c p name devLoc
  if v.length = 2 then (g.1, some (g.2.2 ++ [.uniform2fv g.2.1]))
  else if v.length = 4 then (g.1, some (g.2.2 ++ [.uniform4fv g.2.1]))
  else if v.length = 16 then (g.1, some (g.2.2 ++ [.uniformMatrix4fv g.2.1]))
  else (g.1, none)

/-! ## Claim theorems -/

/-- C2: blend-mode short-circuit. If the mode equals the cached last
composite mode, `BlendFunc` issues no device call and leaves the whole
cached state unchanged; otherwise it resolves the mode to its blend-factor
pair, issues exactly one device blend-function call and records the mode;
and a second consecutive call with the same mode issues no further call. -/
theorem blendFunc_short_circuit (c : Context) (m : CompositeMode) :
    (c.lastCompositeMode = m → BlendFunc c m = (c, [])) ∧
    (c.lastCompositeMode ≠ m →
      BlendFunc c m =
        ({ c with lastCompositeMode := m },
         [.blendFunc (convertOperation (operations m).1)
            (convertOperation (operations m).2)])) ∧
    BlendFunc (BlendFunc c m).1 m = ((BlendFunc c m).1, []) := by
  by_cases h : c.lastCompositeMode = m <;> simp [BlendFunc, h]

/-- Witness for C2: the two branches of `blendFunc_short_circuit` at a
concrete context, plus the consecutive-call instance. -/
theorem blendFunc_short_circuit_witness :
    BlendFunc { freshContext with lastCompositeMode := .sourceOver } .sourceOver =
      ({ freshContext with lastCompositeMode := .sourceOver }, []) ∧
    BlendFunc freshContext .sourceOver =
      ({ freshContext with lastCompositeMode := CompositeMode.sourceOver },
       [.blendFunc (convertOperation (operations .sourceOver).1)
          (convertOperation (operations .sourceOver).2)]) :=
  ⟨(blendFunc_short_circuit { freshContext with lastCompositeMode := .sourceOver }
      .sourceOver).1 rfl,
   (blendFunc_short_circuit freshContext .sourceOver).2.1 (by decide)⟩

/-- C5: deleting the cached bound framebuffer resets the framebuffer
cache entry to the invalid sentinel and both cached viewport dimensions to
the unknown value 0, and issues the device delete; deleting a live
framebuffer that is not the cached one leaves the cached state unchanged. -/
theorem deleteFramebuffer_viewport_reset (c : Context) (f : Nat) :
    (c.lastFramebuffer = f →
      DeleteFramebuffer c f true =
        ({ c with
            lastFramebuffer := invalidFramebuffer
            lastViewportWidth := 0
            lastViewportHeight := 0 },
         [.isFramebuffer f, .deleteFramebuffers f])) ∧
    (c.lastFramebuffer ≠ f →
      DeleteFramebuffer c f true = (c, [.isFramebuffer f, .deleteFramebuffers f])) := by
  by_cases h : c.lastFramebuffer = f <;> simp [DeleteFramebuffer, h]

/-- Witness for C5: both branches at concrete contexts. -/
theorem deleteFramebuffer_viewport_reset_witness :
    DeleteFramebuffer
      { freshContext with lastFramebuffer := 7, lastViewportWidth := 64, lastViewportHeight := 48 }
      7 true =
      ({ { freshContext with lastFramebuffer := 7, lastViewportWidth := 64, lastViewportHeight := 48 } with
          lastFramebuffer := invalidFramebuffer
          lastViewportWidth := 0
          lastViewportHeight := 0 },
       [.isFramebuffer 7, .deleteFramebuffers 7]) ∧
    DeleteFramebuffer { freshContext with lastFramebuffer := 7 } 9 true =
      ({ freshContext with lastFramebuffer := 7 },
       [.isFramebuffer 9, .deleteFramebuffers 9]) :=
  ⟨(deleteFramebuffer_viewport_reset
      { freshContext with lastFramebuffer := 7, lastViewportWidth := 64, lastViewportHeight := 48 }
      7).1 rfl,
   (deleteFramebuffer_viewport_reset { freshContext with lastFramebuffer := 7 } 9).2 (by decide)⟩

/-- C6: idempotent deletion. When the device reports the handle as not
live, `DeleteTexture`, `DeleteFramebuffer` and `deleteProgram` only issue
the liveness query, issue no device delete call, and leave every cached
state field unchanged (the Go methods have no error channel, so returning
without error is returning at all). -/
theorem idempotent_deletion (c : Context) (t f p : Nat) :
    DeleteTexture c t false = (c, [.isTexture t]) ∧
    DeleteFramebuffer c f false = (c, [.isFramebuffer f]) ∧
    deleteProgram c p false = (c, [.isProgram p]) ∧
    (DeleteTexture c t false).2.all (fun call => !call.isDeleteCall) = true ∧
    (DeleteFramebuffer c f false).2.all (fun call => !call.isDeleteCall) = true ∧
    (deleteProgram c p false).2.all (fun call => !call.isDeleteCall) = true := by
  simp [DeleteTexture, DeleteFramebuffer, deleteProgram, GLCall.isDeleteCall]

/-- C8: fatal location lookup. The resolvers abort (modelled as `none`)
exactly when the device reports the not-found sentinel `-1`; they never
return the sentinel as an ordinary value; and whenever the name resolves
to a real location the abort branch is not taken. -/
theorem location_lookup_fatal (p : Nat) (name : String) (devU devA : Int) :
    (getUniformLocationImpl p name devU = none ↔ devU = -1) ∧
    (getAttribLocationImpl p name devA = none ↔ devA = -1) ∧
    (∀ l, getUniformLocationImpl p name devU = some l → l ≠ -1) ∧
    (∀ l, getAttribLocationImpl p name devA = some l → l ≠ -1) ∧
    (devU ≠ -1 → getUniformLocationImpl p name devU = some devU) ∧
    (devA ≠ -1 → getAttribLocationImpl p name devA = some devA) := by
  unfold getUniformLocationImpl getAttribLocationImpl
  by_cases hu : devU = -1 <;> by_cases ha : devA = -1 <;> simp [hu, ha]

/-- Witness for C8: the sentinel aborts, a real location is returned. -/
theorem location_lookup_fatal_witness :
    getUniformLocationImpl 1 "u" (-1) = none ∧
    getAttribLocationImpl 1 "u" 5 = some 5 :=
  ⟨(location_lookup_fatal 1 "u" (-1) 5).1.mpr rfl,
   (location_lookup_fatal 1 "u" (-1) 5).2.2.2.2.2 (by decide)⟩

/-- C10: `uniformFloats` dispatches on the slice length: 2 issues the
2-vector uniform call, 4 the 4-vector call, 16 the 4x4-matrix call, and
every other length (the empty slice included) hits the `not reached`
panic, modelled as a `none` call list. -/
theorem uniformFloats_length_dispatch (c : Context) (p : Nat) (name : String)
    (v : List Float) (d : Int) :
    (v.length = 2 → uniformFloats c p name v d =
      ((GetUniformLocation c p name d).1,
       some ((GetUniformLocation c p name d).2.2 ++
         [.uniform2fv (GetUniformLocation c p name d).2.1]))) ∧
    (v.length = 4 → uniformFloats c p name v d =
      ((GetUniformLocation c p name d).1,
       some ((GetUniformLocation c p name d).2.2 ++
         [.uniform4fv (GetUniformLocation c p name d).2.1]))) ∧
    (v.length = 16 → uniformFloats c p name v d =
      ((GetUniformLocation c p name d).1,
       some ((GetUniformLocation c p name d).2.2 ++
         [.uniformMatrix4fv (GetUniformLocation c p name d).2.1]))) ∧
    (v.length ≠ 2 → v.length ≠ 4 → v.length ≠ 16 →
      (uniformFloats c p name v d).2 = none) ∧
    (uniformFloats c p name [] d).2 = none := by
  refine ⟨?_, ?_, ?_, ?_, ?_⟩
  · intro h; simp [uniformFloats, h]
  · intro h; simp [uniformFloats, h]
  · intro h; simp [uniformFloats, h]
  · intro h2 h4 h16; simp [uniformFloats, h2, h4, h16]
  · simp [uniformFloats]

/-- Witness for C10: length 2 issues the 2-vector call, length 1 panics. -/
theorem uniformFloats_length_dispatch_witness :
    uniformFloats freshContext 1 "u" [0, 0] 3 =
      ((GetUniformLocation freshContext 1 "u" 3).1,
       some ((GetUniformLocation freshContext 1 "u" 3).2.2 ++
         [.uniform2fv (GetUniformLocation freshContext 1 "u" 3).2.1])) ∧
    (uniformFloats freshContext 1 "u" [0] 3).2 = none :=
  ⟨(uniformFloats_length_dispatch freshContext 1 "u" [0, 0] 3).1 rfl,
   (uniformFloats_length_dispatch freshContext 1 "u" [0] 3).2.2.2.1
     (by decide) (by decide) (by decide)⟩

/-- C1 (divergence witness): `deleteProgram` in the source never touches
`c.locationCache`. Deleting a live program whose location for name `u` is
cached as 3 leaves that cache entry in place, and resolving `u` against a
later program that reuses numeric id 2 (whose true device location is 7)
returns the stale cached 3 with no device round-trip. -/
theorem deleteProgram_stale_location :
    (deleteProgram { freshContext with locationCache := [((2, "u"), 3)] } 2 true).1.locationCache
      = [((2, "u"), 3)] ∧
    (GetUniformLocation
      (deleteProgram { freshContext with locationCache := [((2, "u"), 3)] } 2 true).1
      2 "u" 7).2.1 = 3 ∧
    (GetUniformLocation
      (deleteProgram { freshContext with locationCache := [((2, "u"), 3)] } 2 true).1
      2 "u" 7).2.2 = [] := by
  refine ⟨rfl, rfl, rfl⟩

/-- C3: `reset` performs, in order: the `init`-guarded device library
initialization (at most once, no-op after success, error on failure),
recreation of the Location Cache, resetting of the cached texture,
framebuffer, viewport and composite-mode entries to their sentinels,
unconditional blend enable, source-over through the `BlendFunc` path
(so the cached composite mode ends as source-over), and recording of the
currently bound framebuffer as the screen framebuffer. -/
theorem reset_sequence (c : Context) (e : String) (ie : Option String) (fb : Nat) :
    (c.init = true →
      reset c ie fb =
        { ctx :=
            { init := true, locationCache := [], lastTexture := invalidTexture,
              lastFramebuffer := invalidFramebuffer, lastViewportWidth := 0,
              lastViewportHeight := 0, lastCompositeMode := .sourceOver,
              screenFramebuffer := fb },
          calls := [.enable GL_BLEND, .blendFunc GL_ONE GL_ONE_MINUS_SRC_ALPHA,
            .getIntegerv GL_FRAMEBUFFER_BINDING],
          err := none } ∧
      GLCall.glInit ∉ (reset c ie fb).calls) ∧
    (c.init = false →
      reset c (some e) fb =
        { ctx := c, calls := [.glInit],
          err := some ("opengl: initializing error " ++ e) }) ∧
    (c.init = false →
      reset c none fb =
        { ctx :=
            { init := true, locationCache := [], lastTexture := invalidTexture,
              lastFramebuffer := invalidFramebuffer, lastViewportWidth := 0,
              lastViewportHeight := 0, lastCompositeMode := .sourceOver,
              screenFramebuffer := fb },
          calls := [.glInit, .enable GL_BLEND, .blendFunc GL_ONE GL_ONE_MINUS_SRC_ALPHA,
            .getIntegerv GL_FRAMEBUFFER_BINDING],
          err := none }) := by
  by_cases h : c.init <;>
    simp [reset, resetTail, BlendFunc, operations, convertOperation, h]

/-- Witness for C3: the three branches of `reset_sequence` at concrete
inputs — first-call success, first-call failure, and repeat call. -/
theorem reset_sequence_witness :
    reset freshContext none 9 =
      { ctx :=
          { init := true, locationCache := [], lastTexture := invalidTexture,
            lastFramebuffer := invalidFramebuffer, lastViewportWidth := 0,
            lastViewportHeight := 0, lastCompositeMode := .sourceOver,
            screenFramebuffer := 9 },
        calls := [.glInit, .enable GL_BLEND, .blendFunc GL_ONE GL_ONE_MINUS_SRC_ALPHA,
          .getIntegerv GL_FRAMEBUFFER_BINDING],
        err := none } ∧
    reset freshContext (some "boom") 9 =
      { ctx := freshContext, calls := [.glInit],
        err := some ("opengl: initializing error " ++ "boom") } ∧
    GLCall.glInit ∉ (reset { freshContext with init := true } none 9).calls :=
  ⟨(reset_sequence freshContext "x" none 9).2.2 rfl,
   (reset_sequence freshContext "boom" (some "boom") 9).2.1 rfl,
   ((reset_sequence { freshContext with init := true } "x" none 9).1 rfl).2⟩

/-- C4: three-tier framebuffer-completeness error fallback. When the
completeness status is not `FRAMEBUFFER_COMPLETE`, the creation error
embeds the nonzero status code; else, with status 0, the nonzero generic
device error code; else the fixed unknown-error message — and every such
failure returns the handle value 0, never a usable framebuffer handle. -/
theorem newFramebuffer_error_fallback (c : Context) (tex genF status lastErr : Nat)
    (hg : genF ≠ 0) (hs : status ≠ GL_FRAMEBUFFER_COMPLETE) :
    (NewFramebuffer c tex genF status lastErr).handle = 0 ∧
    (NewFramebuffer c tex genF status lastErr).err ≠ none ∧
    (status ≠ 0 → (NewFramebuffer c tex genF status lastErr).err =
      some ("opengl: creating framebuffer failed: " ++ toString status)) ∧
    (status = 0 → lastErr ≠ 0 → (NewFramebuffer c tex genF status lastErr).err =
      some ("opengl: creating framebuffer failed: (glGetError) " ++ toString lastErr)) ∧
    (status = 0 → lastErr = 0 → (NewFramebuffer c tex genF status lastErr).err =
      some "opengl: creating framebuffer failed: unknown error") := by
  have hs36 : status ≠ 36053 := by simpa [GL_FRAMEBUFFER_COMPLETE] using hs
  by_cases h1 : status = 0 <;> by_cases h2 : lastErr = 0 <;>
    simp [NewFramebuffer, GL_NO_ERROR, GL_FRAMEBUFFER_COMPLETE, hg, hs36, h1, h2]

/-- Witness for C4: the three fallback tiers at concrete device codes. -/
theorem newFramebuffer_error_fallback_witness :
    (NewFramebuffer freshContext 1 5 36055 0).err =
      some ("opengl: creating framebuffer failed: " ++ toString 36055) ∧
    (NewFramebuffer freshContext 1 5 0 1282).err =
      some ("opengl: creating framebuffer failed: (glGetError) " ++ toString 1282) ∧
    (NewFramebuffer freshContext 1 5 0 0).err =
      some "opengl: creating framebuffer failed: unknown error" ∧
    (NewFramebuffer freshContext 1 5 36055 0).handle = 0 :=
  ⟨(newFramebuffer_error_fallback freshContext 1 5 36055 0 (by decide) (by decide)).2.2.1
      (by decide),
   (newFramebuffer_error_fallback freshContext 1 5 0 1282 (by decide) (by decide)).2.2.2.1
      rfl (by decide),
   (newFramebuffer_error_fallback freshContext 1 5 0 0 (by decide) (by decide)).2.2.2.2
      rfl rfl,
   (newFramebuffer_error_fallback freshContext 1 5 36055 0 (by decide) (by decide)).1⟩

/-- C7 (counterexample): on link failure the source returns the fixed
message `opengl: program error` even when the device has a nonempty
diagnostic log available — no character of the log `x` occurs in the
returned message, so the message does not include the log text. -/
theorem newProgram_ignores_log_counterexample :
    (newProgram freshContext [4] 5 false "x").err = some "opengl: program error" ∧
    "x".toList ≠ [] ∧
    'x' ∉ "opengl: program error".toList := by
  decide

/-- C7 (amended): when the link status is false, `newProgram` fails with
the fixed generic message `opengl: program error`, independent of any
device diagnostic log, and returns handle value 0 (no program handle). -/
theorem newProgram_link_failure_generic (c : Context) (shaders : List Nat)
    (devP : Nat) (log1 log2 : String) (h : devP ≠ 0) :
    newProgram c shaders devP false log1 =
      { ctx := c,
        calls := [GLCall.createProgram] ++
          shaders.map (fun s => GLCall.attachShader devP s) ++
          [.linkProgram devP, .getProgramiv devP],
        handle := 0,
        err := some "opengl: program error" } ∧
    newProgram c shaders devP false log1 = newProgram c shaders devP false log2 := by
  simp [newProgram, h]

/-- Witness for C7: link failure with a nonempty log at concrete input. -/
theorem newProgram_link_failure_generic_witness :
    newProgram freshContext [4, 6] 5 false "diagnostic" =
      { ctx := freshContext,
        calls := [GLCall.createProgram] ++
          [4, 6].map (fun s => GLCall.attachShader 5 s) ++
          [.linkProgram 5, .getProgramiv 5],
        handle := 0,
        err := some "opengl: program error" } :=
  (newProgram_link_failure_generic freshContext [4, 6] 5 "diagnostic" "" (by decide)).1

/-- C9: every failure path of `NewTexture` and `NewFramebuffer` returns
the numeric handle value 0 with a non-nil error; 0 is the texture invalid
sentinel, while the framebuffer invalid sentinel is `2 ^ 32 - 1`, so a
failed framebuffer handle 0 is not the framebuffer sentinel. -/
theorem creation_failure_zero_handle (c c2 : Context) (w h : Int)
    (genT tex genF status lastErr : Nat) :
    invalidTexture = 0 ∧
    invalidFramebuffer = 2 ^ 32 - 1 ∧
    invalidFramebuffer ≠ 0 ∧
    ((NewTexture c w h genT).err ≠ none →
      (NewTexture c w h genT).handle = 0 ∧
      (NewTexture c w h genT).handle = invalidTexture) ∧
    ((NewFramebuffer c2 tex genF status lastErr).err ≠ none →
      (NewFramebuffer c2 tex genF status lastErr).handle = 0 ∧
      (NewFramebuffer c2 tex genF status lastErr).handle ≠ invalidFramebuffer) := by
  refine ⟨rfl, by decide, by decide, ?_, ?_⟩
  · by_cases hT : genT = 0 <;> simp [NewTexture, invalidTexture, hT]
  · by_cases hF : genF = 0
    · simp [NewFramebuffer, hF, invalidFramebuffer]
    · by_cases h1 : status = 36053 <;>
        by_cases h2 : status = 0 <;> by_cases h3 : lastErr = 0 <;>
        simp [NewFramebuffer, GL_NO_ERROR, GL_FRAMEBUFFER_COMPLETE, hF, h1, h2, h3,
          invalidFramebuffer]

/-- Witness for C9: failed texture and framebuffer creations at concrete
inputs both hand back the value 0 with an error present. -/
theorem creation_failure_zero_handle_witness :
    (NewTexture freshContext 1 1 0).handle = 0 ∧
    (NewFramebuffer freshContext 1 0 0 0).handle = 0 ∧
    (NewFramebuffer freshContext 1 0 0 0).handle ≠ invalidFramebuffer :=
  ⟨((creation_failure_zero_handle freshContext freshContext 1 1 0 1 0 0 0).2.2.2.1
      (by decide)).1,
   ((creation_failure_zero_handle freshContext freshContext 1 1 0 1 0 0 0).2.2.2.2
      (by decide)).1,
   ((creation_failure_zero_handle freshContext freshContext 1 1 0 1 0 0 0).2.2.2.2
      (by decide)).2⟩

end EbitenGL
